import Mathlib

/-!
Verification of the `speechless` speech-recognition training core
(`src/net.py`, class `Wav2Letter`) against its natural-language
specification, via a shallow embedding in Lean.

Numeric values of the program (numpy floats) are embedded as rationals `ℚ`;
machine tensors are embedded as explicit dimension records with total entry
functions; Python functions that can raise are embedded as `Option`/`Except`
valued functions.
-/

namespace Speechless

/-! ## Data model

An `ndarray` of shape `(rows, cols)` holding one spectrogram
(time steps × features per time step). -/

structure Spectrogram where
  rows : ℕ
  cols : ℕ
  entry : ℕ → ℕ → ℚ

/-- A rank-3 batch tensor of shape `(batch_size, max_length, width)`,
as allocated by `numpy.zeros` and filled by slice assignment. -/
structure Batch3 where
  batch_size : ℕ
  max_length : ℕ
  width : ℕ
  entry : ℕ → ℕ → ℕ → ℚ

/-- A labeled example as consumed by `Wav2Letter.loss`
(`spectrogram_batch.LabeledSpectrogram`). -/
structure LabeledSpectrogram where
  spectrogram : Spectrogram
  label : String

/-- The kind of a Keras layer appearing in `Wav2Letter.create_predictive_net`:
either a `Dropout(rate, input_shape=(None, input_dim))` stage or a
`Convolution1D(nb_filter, filter_length, subsample_length, activation, input_dim)`. -/
inductive LayerKind where
  | dropout (rate : ℚ) (input_dim : Option ℕ)
  | conv (filter_count : ℕ) (filter_length : ℕ) (stride : ℕ)
      (activation : String) (input_dim : Option ℕ)
deriving DecidableEq, Repr

/-- A Keras layer: its name, its kind, and its `trainable` flag
(`True` by default in Keras; `create_predictive_net` sets it to `False`
on the first `frozen_layer_count` layers). -/
structure Layer where
  name : String
  kind : LayerKind
  trainable : Bool
deriving DecidableEq, Repr

/-- The configuration surface of `Wav2Letter.__init__` that the predictive-net
construction depends on. `grapheme_set_size` abstracts
`self.grapheme_encoding.grapheme_set_size` (the encoding module is an external
collaborator of `net.py`). -/
structure Wav2LetterConfig where
  input_size_per_time_step : ℕ
  use_raw_wave_input : Bool
  activation : String
  output_activation : String
  dropout : Option ℚ
  frozen_layer_count : ℕ
  use_asg : Bool
  grapheme_set_size : ℕ

namespace Wav2Letter

/-! ## Network construction (`Wav2Letter.create_predictive_net`, net.py 90-136) -/

/-- The `convolution` helper (net.py 96-104): an optional dropout stage
(present when a dropout rate is configured and `never_dropout` is not set)
followed by one 1-D convolution. All layers are created with Keras's default
`trainable = True`. -/
def convolution (dropout : Option ℚ) (name : String) (filter_count : ℕ)
    (filter_length : ℕ) (striding : ℕ) (activation : String)
    (input_dim : Option ℕ) (never_dropout : Bool) : List Layer :=
  (match dropout, never_dropout with
    | some rate, false =>
        [{ name := "dropout_before_" ++ name,
           kind := LayerKind.dropout rate input_dim, trainable := true }]
    | _, _ => []) ++
  [{ name := name, kind := LayerKind.conv filter_count filter_length striding activation input_dim,
     trainable := true }]

/-- `main_filter_count` (net.py 106). -/
def main_filter_count : ℕ := 250

/-- `input_convolutions` (net.py 108-115): optional raw-wave front end
(filter length 250, stride 160) followed by the striding convolution
(filter length 48, stride 2). -/
def input_convolutions (cfg : Wav2LetterConfig) : List Layer :=
  (if cfg.use_raw_wave_input then
    convolution cfg.dropout "wave_conv" main_filter_count 250 160 cfg.activation
      (some cfg.input_size_per_time_step) false
  else []) ++
  convolution cfg.dropout "striding_conv" main_filter_count 48 2 cfg.activation
    (if cfg.use_raw_wave_input then none else some cfg.input_size_per_time_step) false

/-- `inner_convolutions` (net.py 117-120): seven width-7, stride-1 convolutions. -/
def inner_convolutions (cfg : Wav2LetterConfig) : List Layer :=
  (List.range' 1 7).flatMap (fun i =>
    convolution cfg.dropout ("inner_conv_" ++ toString i) main_filter_count 7 1
      cfg.activation none false)

/-- `output_convolutions` (net.py 122-129): `big_conv_1` (filter length 32),
`big_conv_2` (filter length 1), `output_conv` (filter length 1, one filter per
grapheme, output activation); all three with `never_dropout=True` and the
default stride 1. -/
def output_convolutions (cfg : Wav2LetterConfig) : List Layer :=
  convolution cfg.dropout "big_conv_1" 2000 32 1 cfg.activation none true ++
  convolution cfg.dropout "big_conv_2" 2000 1 1 cfg.activation none true ++
  convolution cfg.dropout "output_conv" cfg.grapheme_set_size 1 1 cfg.output_activation none true

/-- `layers = input_convolutions() + inner_convolutions() + output_convolutions()`
(net.py 131). -/
def predictive_net_layers (cfg : Wav2LetterConfig) : List Layer :=
  input_convolutions cfg ++ inner_convolutions cfg ++ output_convolutions cfg

/-- Setting `layer.trainable = False` (net.py 134). -/
def freeze_layer (l : Layer) : Layer :=
  { l with trainable := false }

/-- `create_predictive_net` (net.py 90-136): builds the layer list and marks the
first `frozen_layer_count` layers (`layers[:self.frozen_layer_count]`) as
non-trainable. -/
def create_predictive_net (cfg : Wav2LetterConfig) : List Layer :=
  ((predictive_net_layers cfg).take cfg.frozen_layer_count).map freeze_layer ++
    (predictive_net_layers cfg).drop cfg.frozen_layer_count

/-- The `subsample_length` of a layer when it is a `Convolution1D`
(the `isinstance(layer, Convolution1D)` filter of net.py 142-143). -/
def conv_stride : Layer → Option ℕ
  | { kind := LayerKind.conv _ _ s _ _, .. } => some s
  | _ => none

/-- `input_to_prediction_length_ratio` (net.py 138-143):
`reduce(lambda x, y: x * y, [layer.subsample_length for layer in layers
if isinstance(layer, Convolution1D)], 1)`. -/
def input_to_prediction_length_ratio (layers : List Layer) : ℕ :=
  ((layers.filterMap conv_stride).foldl (fun x y => x * y) 1)

/-! ## Batch assembly (`Wav2Letter._input_batch_and_prediction_lengths`, net.py 270-279)

The Python method reads `spectrograms[0].shape[1]` and `max(input_lengths)`,
both of which raise on an empty list, so the embedding returns `none` there.
The padded tensor starts as `zeros((batch_size, max(input_lengths),
input_size_per_time_step))` and each spectrogram is copied into
`input_batch[index, :spectrogram.shape[0], :spectrogram.shape[1]]`. -/

def input_batch_and_prediction_lengths (ratio : ℕ) (spectrograms : List Spectrogram) :
    Option (Batch3 × List ℕ) :=
  match spectrograms with
  | [] => none
  | s0 :: _ =>
    let batch_size := spectrograms.length
    let input_size_per_time_step := s0.cols
    let input_lengths := spectrograms.map (fun s => s.rows)
    let prediction_lengths := input_lengths.map (fun s => s / ratio)
    let input_batch : Batch3 :=
      { batch_size := batch_size
        max_length := input_lengths.foldl max 0
        width := input_size_per_time_step
        entry := fun index t f =>
          match spectrograms[index]? with
          | some s => if t < s.rows ∧ f < s.cols then s.entry t f else 0
          | none => 0 }
    some (input_batch, prediction_lengths)

/-- `predict` (net.py 196-200): assembles the batch, runs the predictive net and
decodes. The network forward pass and `decode_prediction_batch` live outside the
assembly logic and are abstracted as the `decode` argument; an empty input list
makes the batch assembly raise, hence `none`. -/
def predict (ratio : ℕ) (decode : Batch3 → List ℕ → List String)
    (spectrograms : List Spectrogram) : Option (List String) :=
  (input_batch_and_prediction_lengths ratio spectrograms).map
    (fun p => decode p.1 p.2)

/-! ## Default ASG transition probabilities
(`Wav2Letter._default_asg_transition_probabilities`, net.py 70-80)

`numpy.random.randint(1, 15, (n+1, n+1))` is embedded as an arbitrary draw
function `draw : ℕ → ℕ → ℕ` together with the hypothesis that every draw lies
in `[1, 15)`. The matrix is `(n+1) × (n+1)` for grapheme set size `n`;
indices range over `0, ..., n`. -/

/-- The raw random matrix `numpy.random.randint(1, 15, (n+1, n+1))` (net.py 72-73). -/
def asg_raw (draw : ℕ → ℕ → ℕ) (i j : ℕ) : ℚ :=
  (draw i j : ℚ)

/-- The matrix after `asg_transition_probabilities[0] = zero_array` and
`asg_transition_probabilities[:, 0] = zero_array` (net.py 74-76). -/
def asg_zeroed (draw : ℕ → ℕ → ℕ) (i j : ℕ) : ℚ :=
  if i = 0 ∨ j = 0 then 0 else asg_raw draw i j

/-- `transition_norms = concatenate(([1], asg_transition_probabilities[:, 1:].sum(axis=0)))`
(net.py 78): a dummy 1 for column 0, the column sum over all `n + 1` rows for
every other column. -/
def asg_transition_norms (n : ℕ) (draw : ℕ → ℕ → ℕ) (j : ℕ) : ℚ :=
  if j = 0 then 1 else Finset.sum (Finset.range (n + 1)) (fun i => asg_zeroed draw i j)

/-- The final matrix `asg_transition_probabilities / transition_norms` (net.py 79):
numpy broadcasting divides entry `(i, j)` by `transition_norms[j]`. -/
def default_asg_transition_probabilities (n : ℕ) (draw : ℕ → ℕ → ℕ) (i j : ℕ) : ℚ :=
  asg_zeroed draw i j / asg_transition_norms n draw j

/-! ## The loss layer (`Wav2Letter.loss_net`, `_asg_lambda`, `_ctc_lambda`,
net.py 151-194)

A loss-lambda evaluation either yields a numeric loss or raises; raising
`NotImplementedError` is embedded as `Except.error`. -/

/-- The argument tuple handed to the loss lambda by `loss_net` (net.py 175-176):
the prediction batch produced by the predictive net, the label batch, and the
prediction/label length columns. -/
structure LossLayerArgs where
  prediction_batch : Batch3
  label_batch : List (List ℕ)
  prediction_lengths : List ℕ
  label_lengths : List ℕ

/-- `_asg_lambda` (net.py 184-187): unconditionally
`raise NotImplementedError("ASG is not yet implemented.")`, whatever the
arguments and transition/initial probabilities are. -/
def asg_lambda (transition_probabilities : ℕ → ℕ → ℚ) (initial_probabilities : ℕ → ℚ)
    (args : LossLayerArgs) : Except String ℚ :=
  Except.error "ASG is not yet implemented."

/-- `_ctc_lambda` (net.py 190-194): delegates to the backend
`ctc_batch_cost`, which is external to this repository and is therefore an
abstract argument; it always yields a numeric loss. -/
def ctc_lambda (ctc_batch_cost : LossLayerArgs → ℚ) (args : LossLayerArgs) :
    Except String ℚ :=
  Except.ok (ctc_batch_cost args)

/-- The loss lambda selected by `loss_net` (net.py 165):
`Wav2Letter._asg_lambda if self.use_asg else Wav2Letter._ctc_lambda`, with the
ASG transition/initial probability variables passed as extra arguments in the
ASG case. -/
def loss_net_loss_layer (ctc_batch_cost : LossLayerArgs → ℚ) (use_asg : Bool)
    (transition_probabilities : ℕ → ℕ → ℚ) (initial_probabilities : ℕ → ℚ) :
    LossLayerArgs → Except String ℚ :=
  if use_asg then asg_lambda transition_probabilities initial_probabilities
  else ctc_lambda ctc_batch_cost

/-! ## `Wav2Letter.loss` (net.py 205-209)

The method materialises the batches, counts the samples, calls
`self.loss_net.evaluate_generator(..., val_samples=sample_count)` — an external
Keras call abstracted as the `evaluate_generator` argument — and ends without a
`return` statement, so it evaluates the loss net and returns `None`. -/

def loss (evaluate_generator : ℕ → ℚ)
    (labeled_spectrogram_batches : List (List LabeledSpectrogram)) : Option ℚ :=
  let batches := labeled_spectrogram_batches
  let sample_count := (batches.map (fun batch => batch.length)).sum
  let _ := evaluate_generator sample_count
  none

end Wav2Letter

/-! ## Optimization steps over the layer list

Models the contract of the external training framework (Keras/`fit_generator`):
one optimization step updates every layer whose `trainable` flag is set and
leaves layers marked non-trainable untouched. -/

/-- One framework optimization step: `update` is applied exactly to the
trainable layers. -/
def train_step (update : Layer → Layer) : List Layer → List Layer
  | [] => []
  | l :: rest => (if l.trainable then update l else l) :: train_step update rest

/-! ## Shared concrete configuration and helper lemmas -/

/-- The standard spectrogram-input configuration: mel-spectrogram input,
no raw-wave front end, no dropout, no frozen layers, CTC loss. -/
def stdCfg : Wav2LetterConfig :=
  ⟨128, false, "relu", "softmax", none, 0, false, 28⟩

/-- The standard configuration with a dropout rate of 1/4 and the first two
layers frozen. -/
def dropCfg : Wav2LetterConfig :=
  ⟨128, false, "relu", "softmax", some (1 / 4), 2, false, 28⟩

open Wav2Letter

/-- The freeze-invariant part of a layer: its name and kind (everything
except the `trainable` flag). -/
def layer_shape (l : Layer) : String × LayerKind :=
  (l.name, l.kind)

/-- Whether a layer (given by its shape) is a dropout stage. -/
def is_dropout_shape : String × LayerKind → Bool
  | (_, LayerKind.dropout _ _) => true
  | _ => false

/-- Whether a layer (given by its shape) is a convolution. -/
def is_conv_shape : String × LayerKind → Bool
  | (_, LayerKind.conv _ _ _ _ _) => true
  | _ => false

/-- The names of the three output-stage convolutions, built with
`never_dropout=True` in the source. -/
def output_conv_names : List String :=
  ["big_conv_1", "big_conv_2", "output_conv"]

/-- Walks the layer list tracking whether the previous layer was a dropout
stage; requires every convolution outside the output stage to be immediately
preceded by a dropout stage, and every output-stage convolution NOT to be
preceded by one. -/
def dropout_placement_check : Bool → List (String × LayerKind) → Bool
  | _, [] => true
  | prev, s :: rest =>
    (if is_conv_shape s then
      (if output_conv_names.contains s.1 then !prev else prev)
    else true)
    && dropout_placement_check (is_dropout_shape s) rest

/-- C1: with `use_asg` enabled, the loss lambda installed by `loss_net` is
`_asg_lambda`, and evaluating it on any arguments yields the
`NotImplementedError`-equivalent signal `"ASG is not yet implemented."`,
never a numeric loss value. -/
theorem c1_asg_loss_always_fails (ctc_batch_cost : LossLayerArgs → ℚ)
    (tp : ℕ → ℕ → ℚ) (ip : ℕ → ℚ) (args : LossLayerArgs) :
    loss_net_loss_layer ctc_batch_cost true tp ip args
      = Except.error "ASG is not yet implemented."
    ∧ ∀ v : ℚ, loss_net_loss_layer ctc_batch_cost true tp ip args ≠ Except.ok v := by
  refine ⟨rfl, fun v h => ?_⟩
  exact Except.noConfusion h

/-- C5 counterexample: on a concrete one-batch input, `Wav2Letter.loss`
returns `none` (the method body ends without a `return` statement and the
`evaluate_generator` result is discarded), refuting the claim that the loss
operation returns a scalar loss value rather than returning nothing. -/
theorem c5_counterexample :
    Wav2Letter.loss (fun _ => (5 : ℚ))
      [[⟨⟨4, 3, fun _ _ => 1⟩, "ab"⟩]] = none := rfl

/-- C5 amended: in training mode, the loss operation evaluates the loss net
over the batches (the per-batch losses are printed as a side effect) but
returns no value (`None`); it never returns a scalar loss value. -/
theorem c5_amended_loss_returns_none (evaluate_generator : ℕ → ℚ)
    (batches : List (List LabeledSpectrogram)) :
    Wav2Letter.loss evaluate_generator batches = none := rfl

/-- C9: batch assembly is deterministic and idempotent — two applications of
`_input_batch_and_prediction_lengths` to the same spectrogram list (with the
same stride ratio) yield the same padded tensor and the same length vector;
the method reads no mutable or random state besides its arguments. -/
theorem c9_assembly_deterministic (ratio : ℕ) (xs ys : List Spectrogram)
    (h : xs = ys) :
    input_batch_and_prediction_lengths ratio xs
      = input_batch_and_prediction_lengths ratio ys := by
  rw [h]

/-- Witness for C9 at a concrete input. -/
theorem c9_assembly_deterministic_witness :
    input_batch_and_prediction_lengths 2 [⟨5, 2, fun _ _ => 1⟩]
      = input_batch_and_prediction_lengths 2 [⟨5, 2, fun _ _ => 1⟩] :=
  c9_assembly_deterministic 2 [⟨5, 2, fun _ _ => 1⟩] [⟨5, 2, fun _ _ => 1⟩] rfl

/-- C10: batch assembly and prediction fail on an empty spectrogram list
(`spectrograms[0]` and `max([])` raise in the source, embedded as `none`),
and on every non-empty list they succeed with the padded tensor's feature
width taken from the first example's feature dimension. -/
theorem c10_empty_batch_fails (ratio : ℕ) (decode : Batch3 → List ℕ → List String) :
    input_batch_and_prediction_lengths ratio [] = none
    ∧ Wav2Letter.predict ratio decode [] = none
    ∧ ∀ (s0 : Spectrogram) (rest : List Spectrogram),
        ∃ t lens,
          input_batch_and_prediction_lengths ratio (s0 :: rest) = some (t, lens)
          ∧ t.width = s0.cols := by
  refine ⟨rfl, rfl, fun s0 rest => ⟨_, _, rfl, rfl⟩⟩

/-- C2: the exposed `input_to_prediction_length_ratio` is the product of the
`subsample_length` strides of all `Convolution1D` layers of the built network,
and on any non-empty batch the expected output length of each example is its
true feature length integer-divided by that total stride. -/
theorem c2_total_stride (cfg : Wav2LetterConfig) (spectrograms : List Spectrogram)
    (h : spectrograms ≠ []) :
    input_to_prediction_length_ratio (create_predictive_net cfg)
      = ((create_predictive_net cfg).filterMap conv_stride).prod
    ∧ ∃ t : Batch3,
        input_batch_and_prediction_lengths
            (input_to_prediction_length_ratio (create_predictive_net cfg)) spectrograms
          = some (t, spectrograms.map (fun s =>
              s.rows / input_to_prediction_length_ratio (create_predictive_net cfg))) := by
  constructor
  · exact List.prod_eq_foldl.symm
  · obtain ⟨s0, rest, rfl⟩ := List.exists_cons_of_ne_nil h
    have hm : (s0 :: rest).map (fun s =>
          s.rows / input_to_prediction_length_ratio (create_predictive_net cfg))
        = ((s0 :: rest).map (fun s => s.rows)).map (fun n =>
            n / input_to_prediction_length_ratio (create_predictive_net cfg)) := by
      rw [List.map_map]
      rfl
    rw [hm]
    exact ⟨_, rfl⟩

/-- Witness for C2 at the standard configuration and a one-example batch. -/
theorem c2_total_stride_witness :
    input_to_prediction_length_ratio (create_predictive_net stdCfg)
      = ((create_predictive_net stdCfg).filterMap conv_stride).prod
    ∧ ∃ t : Batch3,
        input_batch_and_prediction_lengths
            (input_to_prediction_length_ratio (create_predictive_net stdCfg))
            [⟨640, 128, fun _ _ => 0⟩]
          = some (t, ([⟨640, 128, fun _ _ => 0⟩] : List Spectrogram).map (fun s =>
              s.rows / input_to_prediction_length_ratio (create_predictive_net stdCfg))) :=
  c2_total_stride stdCfg [⟨640, 128, fun _ _ => 0⟩] (by simp)

/-- C3 counterexample: for the standard spectrogram-input configuration the
built network's convolution strides are NOT `[2,1,1,1,1,1,1,1,1,32,1,1]`
(the tenth convolution, `big_conv_1`, has filter width 32 but stride 1), the
total stride is not 64, and the expected output lengths for a 640-frame
example are not `[10]`. -/
theorem c3_counterexample :
    (create_predictive_net stdCfg).filterMap conv_stride ≠ [2, 1, 1, 1, 1, 1, 1, 1, 1, 32, 1, 1]
    ∧ input_to_prediction_length_ratio (create_predictive_net stdCfg) ≠ 64
    ∧ (input_batch_and_prediction_lengths
          (input_to_prediction_length_ratio (create_predictive_net stdCfg))
          [⟨640, 128, fun _ _ => 0⟩]).map (fun p => p.2) ≠ some [10] := by
  refine ⟨?_, ?_, ?_⟩ <;> decide

/-- C3 amended: the standard spectrogram-input network has eleven
convolutions with strides `[2,1,1,1,1,1,1,1,1,1,1]` (the width-32 convolution
`big_conv_1`, the ninth, has stride 1), the total stride is 2, and the
expected output lengths for a 640-frame example are `[320]`. -/
theorem c3_amended_total_stride :
    (create_predictive_net stdCfg).filterMap conv_stride = [2, 1, 1, 1, 1, 1, 1, 1, 1, 1, 1]
    ∧ input_to_prediction_length_ratio (create_predictive_net stdCfg) = 2
    ∧ (input_batch_and_prediction_lengths
          (input_to_prediction_length_ratio (create_predictive_net stdCfg))
          [⟨640, 128, fun _ _ => 0⟩]).map (fun p => p.2) = some [320] := by
  refine ⟨?_, ?_, ?_⟩ <;> decide

/-- C4 counterexample: for a single spectrogram of true length 4 and the
standard network's total stride 2, batch assembly returns the length vector
`[2]`, not the true length vector `[4]` — the lengths are integer-divided by
the stride, refuting "returns the true per-example lengths unchanged". -/
theorem c4_counterexample :
    (input_batch_and_prediction_lengths
        (input_to_prediction_length_ratio (create_predictive_net stdCfg))
        [⟨4, 3, fun _ _ => 1⟩]).map (fun p => p.2) = some [2]
    ∧ ([2] : List ℕ) ≠ [4] := by
  refine ⟨?_, ?_⟩ <;> decide

/-- C4 amended: for every non-empty list of feature sequences (of a common
feature width), batch assembly allocates a zero tensor of shape
(batchSize, maxSequenceLength, featureWidth), copies each sequence into the
prefix of its own row leaving all padding zero, and returns alongside it the
per-example PREDICTION lengths — each true feature length integer-divided by
the total stride — rather than the true lengths unchanged. -/
theorem c4_amended_assembly (ratio : ℕ) (s0 : Spectrogram) (rest : List Spectrogram)
    (hw : ∀ s ∈ s0 :: rest, s.cols = s0.cols) :
    ∃ t : Batch3,
      input_batch_and_prediction_lengths ratio (s0 :: rest)
        = some (t, (s0 :: rest).map (fun s => s.rows / ratio))
      ∧ t.batch_size = (s0 :: rest).length
      ∧ t.max_length = ((s0 :: rest).map (fun s => s.rows)).foldl max 0
      ∧ t.width = s0.cols
      ∧ (∀ index s, (s0 :: rest)[index]? = some s →
          (∀ ti f, ti < s.rows → f < s.cols → t.entry index ti f = s.entry ti f)
          ∧ (∀ ti f, s.rows ≤ ti ∨ s.cols ≤ f → t.entry index ti f = 0))
      ∧ (∀ index, (s0 :: rest).length ≤ index → ∀ ti f, t.entry index ti f = 0) := by
  have hm : (s0 :: rest).map (fun s => s.rows / ratio)
      = ((s0 :: rest).map (fun s => s.rows)).map (fun n => n / ratio) := by
    rw [List.map_map]
    rfl
  rw [hm]
  refine ⟨_, rfl, rfl, rfl, rfl, ?_, ?_⟩
  · intro index s hs
    constructor
    · intro ti f hti hf
      simp only [hs]
      rw [if_pos ⟨hti, hf⟩]
    · intro ti f hor
      simp only [hs]
      rw [if_neg]
      intro hcon
      rcases hor with h1 | h1
      · exact absurd hcon.1 (not_lt.mpr h1)
      · exact absurd hcon.2 (not_lt.mpr h1)
  · intro index hindex ti f
    simp only [List.getElem?_eq_none hindex]

/-- Witness for C4 (amended) at a concrete one-example batch. -/
theorem c4_amended_assembly_witness :
    ∃ t : Batch3,
      input_batch_and_prediction_lengths 2
          [(⟨4, 3, fun _ _ => 1⟩ : Spectrogram)]
        = some (t, ([(⟨4, 3, fun _ _ => 1⟩ : Spectrogram)]).map (fun s => s.rows / 2))
      ∧ t.width = 3 := by
  obtain ⟨t, h1, _, _, h4, _, _⟩ :=
    c4_amended_assembly 2 ⟨4, 3, fun _ _ => 1⟩ [] (by simp)
  exact ⟨t, h1, h4⟩

/-- C6: for every grapheme set size `n` and every admissible random draw
(integers in `[1, 15)`, as produced by `numpy.random.randint(1, 15, ...)`),
the synthesized default ASG transition-probability matrix has every
non-sentinel column (columns `1, ..., n`) summing to exactly 1, and its
sentinel row (row 0) and sentinel column (column 0) are exactly zero. -/
theorem c6_asg_transition_matrix (n : ℕ) (draw : ℕ → ℕ → ℕ)
    (hdraw : ∀ i j, 1 ≤ draw i j ∧ draw i j < 15) :
    (∀ j, 1 ≤ j → j ≤ n →
      Finset.sum (Finset.range (n + 1))
        (fun i => default_asg_transition_probabilities n draw i j) = 1)
    ∧ (∀ j, default_asg_transition_probabilities n draw 0 j = 0)
    ∧ (∀ i, default_asg_transition_probabilities n draw i 0 = 0) := by
  have hzero_row : ∀ j, asg_zeroed draw 0 j = 0 := by
    intro j
    simp [asg_zeroed]
  have hzero_col : ∀ i, asg_zeroed draw i 0 = 0 := by
    intro i
    simp [asg_zeroed]
  have hnonneg : ∀ i j, 0 ≤ asg_zeroed draw i j := by
    intro i j
    unfold asg_zeroed asg_raw
    split
    · exact le_refl 0
    · exact Nat.cast_nonneg _
  refine ⟨?_, ?_, ?_⟩
  · intro j hj1 hjn
    have hjne : j ≠ 0 := by omega
    have hnorm : asg_transition_norms n draw j
        = Finset.sum (Finset.range (n + 1)) (fun i => asg_zeroed draw i j) := by
      unfold asg_transition_norms
      rw [if_neg hjne]
    have hone : (1 : ℚ) ≤ asg_zeroed draw 1 j := by
      unfold asg_zeroed asg_raw
      rw [if_neg]
      · exact_mod_cast (hdraw 1 j).1
      · intro hcon
        rcases hcon with h1 | h1
        · exact one_ne_zero h1
        · exact hjne h1
    have hmem : (1 : ℕ) ∈ Finset.range (n + 1) := by
      rw [Finset.mem_range]
      omega
    have hpos : (0 : ℚ) < Finset.sum (Finset.range (n + 1)) (fun i => asg_zeroed draw i j) := by
      have hle := Finset.single_le_sum (fun i _ => hnonneg i j) hmem
      exact lt_of_lt_of_le one_pos (le_trans hone hle)
    unfold default_asg_transition_probabilities
    rw [← Finset.sum_div, hnorm]
    exact div_self (ne_of_gt hpos)
  · intro j
    unfold default_asg_transition_probabilities
    rw [hzero_row, zero_div]
  · intro i
    unfold default_asg_transition_probabilities
    rw [hzero_col, zero_div]

/-- Witness for C6 at grapheme set size 2 and the constant draw 3. -/
theorem c6_asg_transition_matrix_witness :
    Finset.sum (Finset.range 3)
      (fun i => default_asg_transition_probabilities 2 (fun _ _ => 3) i 1) = 1
    ∧ default_asg_transition_probabilities 2 (fun _ _ => 3) 0 1 = 0
    ∧ default_asg_transition_probabilities 2 (fun _ _ => 3) 2 0 = 0 := by
  have h := c6_asg_transition_matrix 2 (fun _ _ => 3)
    (fun i j => ⟨by norm_num, by norm_num⟩)
  exact ⟨h.1 1 (by norm_num) (by norm_num), h.2.1 1, h.2.2 2⟩

/-- Marking a layer non-trainable does not change its name or kind. -/
theorem layer_shape_freeze (l : Layer) : layer_shape (freeze_layer l) = layer_shape l := by
  cases l
  rfl

/-- The freeze step of `create_predictive_net` leaves the sequence of layer
names and kinds unchanged. -/
theorem create_predictive_net_map_shape (cfg : Wav2LetterConfig) :
    (create_predictive_net cfg).map layer_shape
      = (predictive_net_layers cfg).map layer_shape := by
  unfold create_predictive_net
  rw [List.map_append, List.map_map]
  have hcomp : layer_shape ∘ freeze_layer = layer_shape := by
    funext l
    exact layer_shape_freeze l
  rw [hcomp, ← List.map_append, List.take_append_drop]

/-- C7: when a dropout rate is configured, the built network has a dropout
stage immediately before every convolution except the three output-stage
convolutions, which are never preceded by dropout (checked by
`dropout_placement_check` over the layer shapes); when no dropout rate is
configured, the network contains no dropout stage at all. Holds for both the
spectrogram-input and the raw-waveform configurations. -/
theorem c7_dropout_placement (cfg : Wav2LetterConfig) :
    (cfg.dropout = none →
      ((create_predictive_net cfg).map layer_shape).all
        (fun s => !is_dropout_shape s) = true)
    ∧ (∀ r : ℚ, cfg.dropout = some r →
      dropout_placement_check false ((create_predictive_net cfg).map layer_shape) = true) := by
  obtain ⟨isz, raw, act, oact, drop, froz, asg, gss⟩ := cfg
  rw [create_predictive_net_map_shape]
  constructor
  · intro hnone
    cases hnone
    cases raw <;> rfl
  · intro r hsome
    cases hsome
    cases raw <;> rfl

/-- Witness for C7: no dropout stage at all in the no-dropout configuration;
correct dropout placement in the dropout-configured configuration. -/
theorem c7_dropout_placement_witness :
    ((create_predictive_net stdCfg).map layer_shape).all
      (fun s => !is_dropout_shape s) = true
    ∧ dropout_placement_check false ((create_predictive_net dropCfg).map layer_shape) = true :=
  ⟨(c7_dropout_placement stdCfg).1 rfl,
   (c7_dropout_placement dropCfg).2 (1 / 4) rfl⟩

/-! ## Lemmas for C8: frozen layers under optimization steps -/

/-- Every layer produced by the `convolution` helper has `trainable = true`. -/
theorem convolution_trainable (d : Option ℚ) (name : String) (fc fl st : ℕ)
    (act : String) (idim : Option ℕ) (nd : Bool) :
    ∀ l ∈ convolution d name fc fl st act idim nd, l.trainable = true := by
  intro l hl
  cases d <;> cases nd <;>
    simp only [convolution, List.nil_append, List.cons_append, List.mem_cons,
      List.mem_singleton, List.not_mem_nil, or_false] at hl <;>
    first
    | (cases hl; rfl)
    | (rcases hl with h | h <;> (cases h; rfl))

/-- Every layer of the freshly built (pre-freeze) layer list has
`trainable = true` (Keras's default). -/
theorem predictive_net_layers_trainable (cfg : Wav2LetterConfig) :
    ∀ l ∈ predictive_net_layers cfg, l.trainable = true := by
  intro l hl
  unfold predictive_net_layers at hl
  rcases List.mem_append.mp hl with h | h
  · rcases List.mem_append.mp h with h1 | h1
    · unfold input_convolutions at h1
      rcases List.mem_append.mp h1 with h2 | h2
      · by_cases hw : cfg.use_raw_wave_input
        · rw [if_pos hw] at h2
          exact convolution_trainable _ _ _ _ _ _ _ _ l h2
        · rw [if_neg hw] at h2
          cases h2
      · exact convolution_trainable _ _ _ _ _ _ _ _ l h2
    · unfold inner_convolutions at h1
      rcases List.mem_flatMap.mp h1 with ⟨i, _, h2⟩
      exact convolution_trainable _ _ _ _ _ _ _ _ l h2
  · unfold output_convolutions at h
    rcases List.mem_append.mp h with h1 | h1
    · rcases List.mem_append.mp h1 with h2 | h2
      · exact convolution_trainable _ _ _ _ _ _ _ _ l h2
      · exact convolution_trainable _ _ _ _ _ _ _ _ l h2
    · exact convolution_trainable _ _ _ _ _ _ _ _ l h1

/-- `train_step` preserves the length of the layer list. -/
theorem train_step_length (u : Layer → Layer) (l : List Layer) :
    (train_step u l).length = l.length := by
  induction l with
  | nil => rfl
  | cons a rest ih => simp [train_step, ih]

/-- Iterated `train_step` preserves the length of the layer list. -/
theorem train_step_iterate_length (u : Layer → Layer) (m : ℕ) (l : List Layer) :
    ((train_step u)^[m] l).length = l.length := by
  induction m generalizing l with
  | zero => rfl
  | succ m ih => rw [Function.iterate_succ_apply, ih, train_step_length]

/-- A non-trainable layer is left untouched (bit-identical) by one
optimization step. -/
theorem train_step_getElem?_frozen (u : Layer → Layer) (l : List Layer) (i : ℕ)
    (x : Layer) (hx : l[i]? = some x) (hfrozen : x.trainable = false) :
    (train_step u l)[i]? = some x := by
  induction l generalizing i with
  | nil => simp at hx
  | cons a rest ih =>
    cases i with
    | zero =>
      rw [List.getElem?_cons_zero, Option.some_inj] at hx
      subst hx
      simp [train_step, hfrozen]
    | succ n =>
      rw [List.getElem?_cons_succ] at hx
      simpa [train_step] using ih n hx

/-- A non-trainable layer is left untouched by any number of optimization
steps. -/
theorem train_step_iterate_frozen (u : Layer → Layer) (m : ℕ) (l : List Layer)
    (i : ℕ) (x : Layer) (hx : l[i]? = some x) (hfrozen : x.trainable = false) :
    ((train_step u)^[m] l)[i]? = some x := by
  induction m generalizing l with
  | zero => simpa using hx
  | succ m ih =>
    rw [Function.iterate_succ_apply]
    exact ih _ (train_step_getElem?_frozen u l i x hx hfrozen)

/-- If the update preserves the `trainable` flag, one optimization step
preserves the flag vector of the whole list. -/
theorem train_step_trainable_map (u : Layer → Layer)
    (hu : ∀ l, (u l).trainable = l.trainable) (l : List Layer) :
    (train_step u l).map (fun x => x.trainable) = l.map (fun x => x.trainable) := by
  induction l with
  | nil => rfl
  | cons a rest ih =>
    simp only [train_step, List.map_cons, ih]
    congr 1
    split
    · exact hu a
    · rfl

/-- If the update preserves the `trainable` flag, so does any number of
optimization steps. -/
theorem train_step_iterate_trainable_map (u : Layer → Layer)
    (hu : ∀ l, (u l).trainable = l.trainable) (m : ℕ) (l : List Layer) :
    ((train_step u)^[m] l).map (fun x => x.trainable) = l.map (fun x => x.trainable) := by
  induction m generalizing l with
  | zero => rfl
  | succ m ih =>
    rw [Function.iterate_succ_apply, ih, train_step_trainable_map u hu]

/-- Element access into `create_predictive_net`: the first
`frozen_layer_count` positions are the frozen versions of the built layers,
the rest are the built layers unchanged. -/
theorem create_predictive_net_getElem? (cfg : Wav2LetterConfig) (i : ℕ) :
    (create_predictive_net cfg)[i]? =
      if i < cfg.frozen_layer_count
      then ((predictive_net_layers cfg)[i]?).map freeze_layer
      else (predictive_net_layers cfg)[i]? := by
  unfold create_predictive_net
  rw [List.getElem?_append]
  simp only [List.length_map, List.length_take]
  by_cases h1 : i < min cfg.frozen_layer_count (predictive_net_layers cfg).length
  · have hiK : i < cfg.frozen_layer_count := by omega
    rw [if_pos h1, if_pos hiK, List.getElem?_map, List.getElem?_take, if_pos hiK]
  · rw [if_neg h1, List.getElem?_drop]
    by_cases h2 : i < cfg.frozen_layer_count
    · have hlen : (predictive_net_layers cfg).length ≤ i := by omega
      have hlen2 : (predictive_net_layers cfg).length
          ≤ cfg.frozen_layer_count + (i - min cfg.frozen_layer_count (predictive_net_layers cfg).length) := by
        omega
      rw [if_pos h2, List.getElem?_eq_none hlen, List.getElem?_eq_none hlen2]
      rfl
    · rw [if_neg h2]
      by_cases h3 : cfg.frozen_layer_count ≤ (predictive_net_layers cfg).length
      · have harg : cfg.frozen_layer_count
            + (i - min cfg.frozen_layer_count (predictive_net_layers cfg).length) = i := by
          omega
        rw [harg]
      · have hlen : (predictive_net_layers cfg).length ≤ i := by omega
        have hlen2 : (predictive_net_layers cfg).length
            ≤ cfg.frozen_layer_count + (i - min cfg.frozen_layer_count (predictive_net_layers cfg).length) := by
          omega
        rw [List.getElem?_eq_none hlen, List.getElem?_eq_none hlen2]

/-- C8: for every configuration and every frozen-layer count, the first
`frozen_layer_count` layers of the built network carry `trainable = false`
and are bit-identical after any number `m` of optimization steps (the step
updating exactly the trainable layers), while every later layer carries
`trainable = true` and stays trainable after those steps. -/
theorem c8_frozen_layers (cfg : Wav2LetterConfig) (update : Layer → Layer)
    (hupdate : ∀ l, (update l).trainable = l.trainable) (m i j : ℕ)
    (hi : i < cfg.frozen_layer_count) (hj : cfg.frozen_layer_count ≤ j) :
    ((train_step update)^[m] (create_predictive_net cfg))[i]?
      = (create_predictive_net cfg)[i]?
    ∧ (∀ l, (create_predictive_net cfg)[i]? = some l → l.trainable = false)
    ∧ (∀ l, ((train_step update)^[m] (create_predictive_net cfg))[j]? = some l →
        l.trainable = true) := by
  have hfrozen : ∀ l, (create_predictive_net cfg)[i]? = some l → l.trainable = false := by
    intro l hl
    rw [create_predictive_net_getElem?, if_pos hi] at hl
    rcases Option.map_eq_some'.mp hl with ⟨x, _, hfx⟩
    rw [← hfx]
    rfl
  refine ⟨?_, hfrozen, ?_⟩
  · cases hx : (create_predictive_net cfg)[i]? with
    | none =>
      have hlen : (create_predictive_net cfg).length ≤ i := by
        by_contra hcon
        rcases List.getElem?_eq_some_iff.mpr ⟨Nat.lt_of_not_le hcon, rfl⟩ with h
        rw [hx] at h
        cases h
      apply List.getElem?_eq_none
      rw [train_step_iterate_length]
      exact hlen
    | some x =>
      rw [train_step_iterate_frozen update m _ i x hx (hfrozen x hx)]
  · intro l hl
    have hmap := train_step_iterate_trainable_map update hupdate m (create_predictive_net cfg)
    have hj2 := congrArg (fun t => t[j]?) hmap
    simp only [List.getElem?_map] at hj2
    rw [hl] at hj2
    rw [create_predictive_net_getElem?, if_neg (Nat.not_lt.mpr hj)] at hj2
    cases hy : (predictive_net_layers cfg)[j]? with
    | none =>
      rw [hy] at hj2
      cases hj2
    | some y =>
      rw [hy] at hj2
      have hymem : y ∈ predictive_net_layers cfg := by
        rcases List.getElem?_eq_some_iff.mp hy with ⟨hlt, hget⟩
        rw [← hget]
        exact List.getElem_mem hlt
      have hytr := predictive_net_layers_trainable cfg y hymem
      simp only [Option.map_some'] at hj2
      rw [hytr] at hj2
      exact Option.some_inj.mp hj2

/-- Witness for C8 at the dropout/frozen configuration, the identity update,
three optimization steps, frozen index 0 and unfrozen index 5. -/
theorem c8_frozen_layers_witness :
    ((train_step id)^[3] (create_predictive_net dropCfg))[0]?
      = (create_predictive_net dropCfg)[0]?
    ∧ (∀ l, (create_predictive_net dropCfg)[0]? = some l → l.trainable = false)
    ∧ (∀ l, ((train_step id)^[3] (create_predictive_net dropCfg))[5]? = some l →
        l.trainable = true) :=
  c8_frozen_layers dropCfg id (fun _ => rfl) 3 0 5 (by decide) (by decide)

end Speechless
